import Mathlib

/-!
Verification of the api-notebook middleware composition contract and the
GitHub-gist persistence plugin (`src/unnamed/part_001`).

The plugin handlers receive a mutable payload `data` and two continuations:
`next` (the continue operation of the dispatcher) and `done` (the terminate
operation).  Each handler is embedded as a pure function from the payload and
the environment feeding the nested `ajax` / oauth triggers to a record holding
the mutated payload, the continuation the handler invoked, and the network
request it issued (if any).

JavaScript dynamic values appearing in the plugin are modelled by `Json`
(the possible results of `JSON.parse`) and `Option Json` (a JS value that may
additionally be `undefined`, as produced by property access on a non-object or
a missing key).
-/

/-- JSON values, the possible results of a successful `JSON.parse`.
Numbers are modelled as integers: every numeric literal the plugin ever
handles (gist ids, user ids, HTTP statuses) is integral. -/
inductive Json where
  | null
  | bool (b : Bool)
  | num (n : Int)
  | str (s : String)
  | arr (elems : List Json)
  | obj (fields : List (String × Json))

/-- The opening-brace character, written via its code point. -/
def lbraceChar : Char := Char.ofNat 123

/-- The closing-brace character, written via its code point. -/
def rbraceChar : Char := Char.ofNat 125

/-- JavaScript truthiness of a JSON value (`!x` in the plugin guards). -/
def Json.truthy : Json → Bool
  | Json.null => false
  | Json.bool b => b
  | Json.num n => n != 0
  | Json.str s => s != ""
  | Json.arr _ => true
  | Json.obj _ => true

/-- Last-binding lookup in a JSON object field list: JavaScript keeps the last
duplicate key, so lookup proceeds from the right. -/
def lookupLast : List (String × Json) → String → Option Json
  | [], _ => none
  | (k, v) :: rest, key =>
    match lookupLast rest key with
    | some r => some r
    | none => if k = key then some v else none

/-- Property access `j[k]` on a JSON value that is not `null` (access on `null`
or `undefined` throws in JS and is modelled at each use site).  Access on a
primitive or a missing key yields `undefined`, i.e. `none`. -/
def jsGet (j : Json) (k : String) : Option Json :=
  match j with
  | Json.obj fs => lookupLast fs k
  | _ => none

/-- Truthiness of a JS value that may be `undefined`. -/
def jvTruthy : Option Json → Bool
  | none => false
  | some j => j.truthy

/-- Property access on a possibly-`undefined` value whose use site has already
established truthiness (hence non-`null`, non-`undefined`). -/
def jvGet (v : Option Json) (k : String) : Option Json :=
  match v with
  | none => none
  | some j => jsGet j k

mutual
/-- JavaScript string conversion of a JSON value (as used by `'/' + data.id`
and `content.login + ' @ Github'`). -/
def jsToString : Json → String
  | Json.null => "null"
  | Json.bool true => "true"
  | Json.bool false => "false"
  | Json.num n => toString n
  | Json.str s => s
  | Json.arr xs => jsToStringList xs
  | Json.obj _ => "[object Object]"

/-- Array-to-string: elements joined with commas. -/
def jsToStringList : List Json → String
  | [] => ""
  | [x] => jsToString x
  | x :: y :: rest => jsToString x ++ "," ++ jsToStringList (y :: rest)
end

/-- String conversion of a possibly-`undefined` JS value. -/
def jvToString : Option Json → String
  | none => "undefined"
  | some j => jsToString j

/-! ## A model of `JSON.parse`

A recursive-descent JSON parser over the character list of the body string.
It implements the JSON grammar used by the gist plugin's payloads: objects,
arrays, strings (with the common escapes), integer numbers, and the literals
`true` / `false` / `null`.  (Fractional and exponent number forms and `\u`
escapes are not modelled; no payload in this development contains them.)
A parse failure models `JSON.parse` throwing a `SyntaxError`. -/

/-- JSON insignificant whitespace. -/
def isJsonWs (c : Char) : Bool :=
  c = ' ' || c = '\t' || c = '\n' || c = '\r'

/-- Skip leading whitespace. -/
def skipWs : List Char → List Char
  | [] => []
  | c :: cs => if isJsonWs c then skipWs cs else c :: cs

/-- Translate a JSON string escape character. -/
def escChar (e : Char) : Option Char :=
  if e = '"' then some '"'
  else if e = '\\' then some '\\'
  else if e = '/' then some '/'
  else if e = 'n' then some '\n'
  else if e = 't' then some '\t'
  else if e = 'r' then some '\r'
  else if e = 'b' then some (Char.ofNat 8)
  else if e = 'f' then some (Char.ofNat 12)
  else none

/-- Parse the remainder of a JSON string (the opening quote already
consumed), accumulating characters in reverse. -/
def parseStrAux : List Char → List Char → Option (String × List Char)
  | _, [] => none
  | acc, c :: cs =>
    if c = '"' then some (String.mk acc.reverse, cs)
    else if c = '\\' then
      match cs with
      | [] => none
      | e :: cs2 =>
        match escChar e with
        | none => none
        | some ch => parseStrAux (ch :: acc) cs2
    else parseStrAux (c :: acc) cs

/-- Split off a maximal run of decimal digits. -/
def takeDigits : List Char → List Char × List Char
  | [] => ([], [])
  | c :: cs =>
    if c.isDigit then
      let p := takeDigits cs
      (c :: p.1, p.2)
    else ([], c :: cs)

/-- Numeric value of a digit run. -/
def digitsToNat (ds : List Char) : Nat :=
  ds.foldl (fun acc c => acc * 10 + (c.toNat - 48)) 0

mutual
/-- Parse one JSON value; fuelled to bound the mutual recursion. -/
def parseVal : Nat → List Char → Option (Json × List Char)
  | 0, _ => none
  | fuel + 1, cs =>
    match skipWs cs with
    | [] => none
    | c :: cs1 =>
      if c = '"' then
        match parseStrAux [] cs1 with
        | none => none
        | some (s, r) => some (Json.str s, r)
      else if c = lbraceChar then
        parseObjBody fuel cs1
      else if c = '[' then
        parseArrBody fuel cs1
      else if c = '-' then
        match takeDigits cs1 with
        | ([], _) => none
        | (ds, r) => some (Json.num (-(digitsToNat ds : Int)), r)
      else if c.isDigit then
        match takeDigits (c :: cs1) with
        | (ds, r) => some (Json.num (digitsToNat ds : Int), r)
      else
        match c :: cs1 with
        | 't' :: 'r' :: 'u' :: 'e' :: r => some (Json.bool true, r)
        | 'f' :: 'a' :: 'l' :: 's' :: 'e' :: r => some (Json.bool false, r)
        | 'n' :: 'u' :: 'l' :: 'l' :: r => some (Json.null, r)
        | _ => none

/-- Parse an object body after the opening brace. -/
def parseObjBody : Nat → List Char → Option (Json × List Char)
  | 0, _ => none
  | fuel + 1, cs =>
    match skipWs cs with
    | [] => none
    | c :: cs1 =>
      if c = rbraceChar then some (Json.obj [], cs1)
      else parseMembers fuel (c :: cs1) []

/-- Parse the comma-separated members of a non-empty object. -/
def parseMembers : Nat → List Char → List (String × Json) → Option (Json × List Char)
  | 0, _, _ => none
  | fuel + 1, cs, acc =>
    match skipWs cs with
    | [] => none
    | c :: cs1 =>
      if c = '"' then
        match parseStrAux [] cs1 with
        | none => none
        | some (k, r1) =>
          match skipWs r1 with
          | ':' :: r2 =>
            match parseVal fuel r2 with
            | none => none
            | some (v, r3) =>
              match skipWs r3 with
              | ',' :: r4 => parseMembers fuel r4 (acc ++ [(k, v)])
              | d :: r4 =>
                if d = rbraceChar then some (Json.obj (acc ++ [(k, v)]), r4)
                else none
              | [] => none
          | _ => none
      else none

/-- Parse an array body after the opening bracket. -/
def parseArrBody : Nat → List Char → Option (Json × List Char)
  | 0, _ => none
  | fuel + 1, cs =>
    match skipWs cs with
    | [] => none
    | ']' :: cs1 => some (Json.arr [], cs1)
    | cs1 => parseElems fuel cs1 []

/-- Parse the comma-separated elements of a non-empty array. -/
def parseElems : Nat → List Char → List Json → Option (Json × List Char)
  | 0, _, _ => none
  | fuel + 1, cs, acc =>
    match parseVal fuel cs with
    | none => none
    | some (v, r1) =>
      match skipWs r1 with
      | ',' :: r2 => parseElems fuel r2 (acc ++ [v])
      | ']' :: r2 => some (Json.arr (acc ++ [v]), r2)
      | _ => none
end

/-- `JSON.parse`: parse a complete JSON document; `none` models the thrown
`SyntaxError`. -/
def Json.parse (s : String) : Option Json :=
  let cs := s.toList
  match parseVal (2 * cs.length + 4) cs with
  | some (j, rest) => if skipWs rest = [] then some j else none
  | none => none

/-! ## A model of `JSON.stringify` (on defined JSON values) -/

/-- Escape one character for a JSON string literal. -/
def escapeJsonChar (c : Char) : String :=
  if c = '"' then "\\\""
  else if c = '\\' then "\\\\"
  else if c = '\n' then "\\n"
  else if c = '\t' then "\\t"
  else if c = '\r' then "\\r"
  else String.singleton c

/-- Serialize a string to a JSON string literal. -/
def stringifyStr (s : String) : String :=
  "\"" ++ String.join (s.toList.map escapeJsonChar) ++ "\""

mutual
/-- `JSON.stringify` on a defined JSON value. -/
def Json.stringify : Json → String
  | Json.null => "null"
  | Json.bool true => "true"
  | Json.bool false => "false"
  | Json.num n => toString n
  | Json.str s => stringifyStr s
  | Json.arr xs => "[" ++ stringifyElems xs ++ "]"
  | Json.obj fs => String.singleton lbraceChar ++ stringifyFields fs ++ String.singleton rbraceChar

/-- Serialize array elements, comma separated. -/
def stringifyElems : List Json → String
  | [] => ""
  | [x] => Json.stringify x
  | x :: y :: rest => Json.stringify x ++ "," ++ stringifyElems (y :: rest)

/-- Serialize object fields, comma separated. -/
def stringifyFields : List (String × Json) → String
  | [] => ""
  | [(k, v)] => stringifyStr k ++ ":" ++ Json.stringify v
  | (k, v) :: f :: rest => stringifyStr k ++ ":" ++ Json.stringify v ++ "," ++ stringifyFields (f :: rest)
end

/-! ## Embedding of the gist persistence plugin (`src/unnamed/part_001`)

Each handler `function (data, next, done)` is embedded as a pure function.
The nested `ajax` / `ajax:oauth2` / oauth triggers are modelled by an
environment record carrying the `(err, xhr)` pair their completion would
deliver; the embedding records which continuation the handler invoked
(`next` = the continue operation, `done` = the terminate operation) and the
network request issued, if any. -/

/-- Endpoint constants of the plugin. -/
def AUTH_URL : String := "https://github.com/login/oauth/authorize"

/-- Token-exchange endpoint constant of the plugin. -/
def TOKEN_URL : String := "https://github.com/login/oauth/access_token"

/-- Validation endpoint constant of the plugin. -/
def VALID_URL : String := "https://api.github.com/user"

/-- JavaScript error values produced or forwarded by the plugin. -/
inductive JsErr where
  | syntaxError
  | typeError
  | jsError (msg : String)
deriving DecidableEq

/-- The slice of an `XMLHttpRequest` object the plugin reads. -/
structure Xhr where
  status : Int
  responseText : String
deriving DecidableEq

/-- The completion `(err, xhr)` delivered by a nested `ajax` /
`ajax:oauth2` trigger; either component may be absent. -/
structure AjaxResponse where
  err : Option JsErr
  xhr : Option Xhr
deriving DecidableEq

/-- Which continuation a handler invoked, and with what: `next` is the
dispatcher's continue operation, `done` its terminate operation; `crash`
records an uncaught exception (neither continuation was invoked). -/
inductive CbCall where
  | next (err : Option JsErr)
  | done (err : Option JsErr) (res : Option Json)
  | crash (e : JsErr)

/-- `true` exactly when the handler invoked the terminate operation. -/
def CbCall.isDone : CbCall → Bool
  | CbCall.done _ _ => true
  | _ => false

/-- `true` exactly when the handler invoked the continue operation. -/
def CbCall.isNext : CbCall → Bool
  | CbCall.next _ => true
  | _ => false

/-- The request a handler hands to the `ajax` / `ajax:oauth2` channel. -/
structure AjaxRequest where
  url : String
  method : String
  body : Option String

/-- The payload of a `persistence:load` trigger, as read and written by the
load handler. -/
structure LoadData where
  id : Option Json
  ownerId : Option Json
  contents : Option Json

/-- Result of running the load handler: the (possibly mutated) payload, the
continuation invoked, and the network request issued, if any. -/
structure LoadRun where
  data : LoadData
  call : CbCall
  request : Option AjaxRequest

/-- The `ajax` completion callback inside `loadPlugin` (part_001 lines
101-118).  The `err` argument is bound but never read.  `xhr.responseText`
is evaluated inside the `try`, so a missing `xhr` raises a `TypeError` that
the `catch` forwards via `next(e)`. -/
def loadCallback (data : LoadData) (resp : AjaxResponse) : LoadData × CbCall :=
  match resp.xhr with
  | none => (data, CbCall.next (some JsErr.typeError))
  | some xhr =>
    match Json.parse xhr.responseText with
    | none => (data, CbCall.next (some JsErr.syntaxError))
    | some content =>
      if !content.truthy || !jvTruthy (jsGet content ("files"))
          || !jvTruthy (jvGet (jsGet content ("files")) ("notebook.md")) then
        (data, CbCall.next (some (JsErr.jsError ("Unexpected JSON response"))))
      else
        let user := jsGet content ("user")
        ({ id := jsGet content ("id"),
           ownerId := if jvTruthy user then jvGet user ("id") else user,
           contents := jvGet (jvGet (jsGet content ("files")) ("notebook.md")) ("content") },
         CbCall.done none none)

/-- The `persistence:load` handler `loadPlugin` (part_001 lines 93-119):
declines via `next()` when the payload has no (truthy) id; otherwise issues a
`GET` for the gist and runs `loadCallback` on the ajax completion. -/
def loadPlugin (data : LoadData) (resp : AjaxResponse) : LoadRun :=
  if !jvTruthy data.id then
    { data := data, call := CbCall.next none, request := none }
  else
    let req : AjaxRequest :=
      { url := "https://api.github.com/gists/" ++ jvToString data.id,
        method := "GET", body := none }
    let r := loadCallback data resp
    { data := r.1, call := r.2, request := some req }

/-- The payload of a `persistence:save` trigger.  `isAuthenticated` is the
value returned by the payload's `isAuthenticated()` method. -/
structure SaveData where
  isAuthenticated : Bool
  id : Option Json
  ownerId : Option Json
  contents : Option Json

/-- Ambient state read by the save handler (`navigator.onLine`) together with
the completion the nested `ajax:oauth2` trigger would deliver. -/
structure SaveEnv where
  onLine : Bool
  resp : AjaxResponse

/-- Result of running the save handler. -/
structure SaveRun where
  data : SaveData
  call : CbCall
  request : Option AjaxRequest

/-- The request body `JSON.stringify({files: {'notebook.md': {content:
data.contents}}})` (part_001 lines 140-146); a `JSON.stringify` of an object
field holding `undefined` omits the field. -/
def saveRequestBody (contents : Option Json) : String :=
  Json.stringify (Json.obj [("files", Json.obj [("notebook.md",
    Json.obj (match contents with
      | none => []
      | some c => [("content", c)]))])])

/-- The `ajax:oauth2` completion callback inside `savePlugin` (part_001 lines
150-169).  A transport error is forwarded via `next(err)`; `xhr.status` is
read outside any `try`, so a missing `xhr` is an uncaught `TypeError`; inside
the `try`, `content.id` on a `null` parse result raises a `TypeError` that the
`catch` forwards via `next(e)`; every path invokes `next`, never `done`. -/
def saveCallback (data : SaveData) (resp : AjaxResponse) : SaveData × CbCall :=
  match resp.err with
  | some e => (data, CbCall.next (some e))
  | none =>
    match resp.xhr with
    | none => (data, CbCall.crash JsErr.typeError)
    | some xhr =>
      if xhr.status != 200 && xhr.status != 201 then
        (data, CbCall.next (some (JsErr.jsError ("Request failed"))))
      else
        match Json.parse xhr.responseText with
        | none => (data, CbCall.next (some JsErr.syntaxError))
        | some Json.null => (data, CbCall.next (some JsErr.typeError))
        | some content =>
          let user := jsGet content ("user")
          ({ data with
             id := jsGet content ("id"),
             ownerId := if jvTruthy user then jvGet user ("id") else user },
           CbCall.next none)

/-- The `persistence:save` handler `savePlugin` (part_001 lines 128-170):
declines via `next()` when `data.isAuthenticated()` is false; reports
`next(new Error('No internet available'))` when `navigator.onLine === false`;
otherwise issues a `POST` (no id) or `PATCH` (id appended to the URL) with the
stringified gist body and runs `saveCallback` on the ajax completion. -/
def savePlugin (data : SaveData) (env : SaveEnv) : SaveRun :=
  if !data.isAuthenticated then
    { data := data, call := CbCall.next none, request := none }
  else if env.onLine = false then
    { data := data, call := CbCall.next (some (JsErr.jsError ("No internet available"))),
      request := none }
  else
    let req : AjaxRequest :=
      { url := "https://api.github.com/gists" ++
          (if jvTruthy data.id then "/" ++ jvToString data.id else ""),
        method := if jvTruthy data.id then "PATCH" else "POST",
        body := some (saveRequestBody data.contents) }
    let r := saveCallback data env.resp
    { data := r.1, call := r.2, request := some req }

/-- The `auth` object delivered by the `authenticate:oauth2:validate`
completion; the plugin reads only `auth.xhr.responseText`. -/
structure AuthObj where
  xhr : Option Xhr

/-- The completion `(err, auth)` of the nested `authenticate:oauth2:validate`
trigger. -/
structure ValidateResp where
  err : Option JsErr
  auth : Option AuthObj

/-- The completion of the nested `authenticate:oauth2` trigger; `authenticatePlugin`
reads only its error component. -/
structure OAuthResp where
  err : Option JsErr

/-- The resolved identity `{userId, userTitle}` handed to `done` by
`authenticatedUserId`. -/
structure UserInfo where
  userId : Option Json
  userTitle : String

/-- The continuation invoked by the authentication handlers. -/
inductive AuthCall where
  | next (err : Option JsErr)
  | done (err : Option JsErr) (user : Option UserInfo)
  | crash (e : JsErr)

/-- `authenticatedUserId` (part_001 lines 25-47): triggers
`authenticate:oauth2:validate` and, from its completion, calls `done(err)` when
`err || !auth`, forwards a caught parse / access exception via `done(e)`, and
otherwise calls `done(null, {userId: content.id, userTitle: content.login +
' @ Github'})` — the object construction sits outside the `try`, so a `null`
parse result raises an uncaught `TypeError`. -/
def authenticatedUserId (resp : ValidateResp) : AuthCall :=
  if resp.err.isSome || !(match resp.auth with | none => false | some _ => true) then
    AuthCall.done resp.err none
  else
    match resp.auth with
    | none => AuthCall.done resp.err none
    | some a =>
      match a.xhr with
      | none => AuthCall.done (some JsErr.typeError) none
      | some xhr =>
        match Json.parse xhr.responseText with
        | none => AuthCall.done (some JsErr.syntaxError) none
        | some Json.null => AuthCall.crash JsErr.typeError
        | some content =>
          AuthCall.done none (some
            { userId := jsGet content ("id"),
              userTitle := jvToString (jsGet content ("login")) ++ " @ Github" })

/-- Result of running `authenticatePlugin`: the continuation invoked, the
parameters of the `authenticate:oauth2` trigger it always issues, and whether
the nested `authenticate:oauth2:validate` trigger was issued. -/
structure AuthRun where
  call : AuthCall
  oauthScopes : List String
  oauthValidateUrl : String
  oauthAccessTokenUrl : String
  oauthAuthorizationUrl : String
  validateTriggered : Bool

/-- The `persistence:authenticate` handler `authenticatePlugin` (part_001
lines 58-73): triggers `authenticate:oauth2` with the gist scope and the
endpoint constants; on its failure calls `next(err)`; on its success resolves
the identity through `authenticatedUserId` (which triggers
`authenticate:oauth2:validate`) with `done` as continuation. -/
def authenticatePlugin (oauth : OAuthResp) (validate : ValidateResp) : AuthRun :=
  match oauth.err with
  | some e =>
    { call := AuthCall.next (some e),
      oauthScopes := ["gist"], oauthValidateUrl := VALID_URL,
      oauthAccessTokenUrl := TOKEN_URL, oauthAuthorizationUrl := AUTH_URL,
      validateTriggered := false }
  | none =>
    { call := authenticatedUserId validate,
      oauthScopes := ["gist"], oauthValidateUrl := VALID_URL,
      oauthAccessTokenUrl := TOKEN_URL, oauthAuthorizationUrl := AUTH_URL,
      validateTriggered := true }

/-! ## The middleware dispatcher, modelled from the spec

The dispatcher implementation (`middleware.trigger` and the registry) is not
among the provided source files — only its callers are — so it is modelled
from the specification (sections 3, 4.2, 7 and 8). -/

/-- Modelled from the spec: the single action a handler takes on its payload —
it mutates the payload and then invokes exactly one of the two continuations,
exactly once (`continue` with an optional provisional error, or `terminate`
with an error-or-null and an optional result).  The missing piece is the
dispatcher core (`middleware.trigger`); handlers that invoke neither
continuation stall the pipeline and are outside this total model. -/
inductive HandlerStep (π : Type) where
  | hNext (err : Option JsErr) (p : π)
  | hDone (err : Option JsErr) (res : Option Json) (p : π)

/-- Modelled from the spec: the value handed to the completion function —
either the threaded payload (chain exhausted or empty) or a terminate
result. -/
inductive CompArg (π : Type) where
  | payload (p : π)
  | result (r : Option Json)

/-- Modelled from the spec: the dispatcher walk (spec section 4.2).  An empty
snapshot completes with `(null, payload)`; `continue(err)` records `err`
(last write wins, a later `continue()` clearing an earlier provisional error,
spec section 8) and advances the cursor, completing with `(lastError,
payload)` on exhaustion; `terminate(err, result)` completes with `(err,
result)` at once.  The function returns the list of completion invocations the
walk performs. -/
def runHandlers {π : Type} :
    List (π → HandlerStep π) → π → Option JsErr → List (Option JsErr × CompArg π)
  | [], p, lastErr => [(lastErr, CompArg.payload p)]
  | h :: hs, p, lastErr =>
    match h p with
    | HandlerStep.hNext e p2 =>
      let _ := lastErr
      runHandlers hs p2 e
    | HandlerStep.hDone e r _ => [(e, CompArg.result r)]

/-- Modelled from the spec: `trigger(channel, payload, completion)` restricted
to one channel's snapshotted handler list; the result is the list of
completion invocations. -/
def triggerMW {π : Type} (hs : List (π → HandlerStep π)) (p : π) :
    List (Option JsErr × CompArg π) :=
  runHandlers hs p none

/-! ## Concrete fixtures for the scenario claims -/

/-- The load-scenario response body
`{"id":"g1","user":{"id":7},"files":{"notebook.md":{"content":"hi"}}}`. -/
def gistBodyOk : String :=
  "\x7b\"id\":\"g1\",\"user\":\x7b\"id\":7\x7d,\"files\":\x7b\"notebook.md\":\x7b\"content\":\"hi\"\x7d\x7d\x7d"

/-- A response body that is not parseable JSON. -/
def badBody : String := "not json"

/-- A validation response body `{"id":7,"login":"octo"}`. -/
def validateBodyOk : String := "\x7b\"id\":7,\"login\":\"octo\"\x7d"

/-- The parse of `validateBodyOk`. -/
def validateContentOk : Json :=
  Json.obj [("id", Json.num 7), ("login", Json.str ("octo"))]

/-- An authenticated save payload without a gist id. -/
def saveDataAuth : SaveData :=
  { isAuthenticated := true, id := none, ownerId := none,
    contents := some (Json.str ("hi")) }

/-- An authenticated save payload that already has a gist id. -/
def saveDataWithId : SaveData :=
  { isAuthenticated := true, id := some (Json.str ("g1")), ownerId := none,
    contents := some (Json.str ("hello")) }

/-- An unauthenticated save payload. -/
def saveDataUnauth : SaveData :=
  { isAuthenticated := false, id := some (Json.str ("g1")), ownerId := none,
    contents := some (Json.str ("x")) }

/-- Online save environment whose write succeeds with status 200. -/
def saveEnvOk : SaveEnv :=
  { onLine := true,
    resp := { err := none, xhr := some { status := 200, responseText := gistBodyOk } } }

/-- Online save environment whose write comes back with status 404. -/
def saveEnvFail : SaveEnv :=
  { onLine := true,
    resp := { err := none, xhr := some { status := 404, responseText := "" } } }

/-- Save environment with connectivity known to be unavailable. -/
def saveEnvOffline : SaveEnv :=
  { onLine := false, resp := { err := none, xhr := none } }

/-- A load payload carrying a gist identifier. -/
def loadDataWithId : LoadData :=
  { id := some (Json.str ("g1")), ownerId := none, contents := none }

/-- A load payload with no identifier. -/
def loadDataNoId : LoadData :=
  { id := none, ownerId := none, contents := none }

/-- Ajax completion delivering the well-formed gist body. -/
def respOk : AjaxResponse :=
  { err := none, xhr := some { status := 200, responseText := gistBodyOk } }

/-- Ajax completion delivering an unparsable body. -/
def respBad : AjaxResponse :=
  { err := none, xhr := some { status := 200, responseText := badBody } }

/-- Ajax completion supplying an error and no xhr object. -/
def respErrOnly : AjaxResponse :=
  { err := some (JsErr.jsError ("connection refused")), xhr := none }

/-- A successful `authenticate:oauth2` completion. -/
def oauthRespOk : OAuthResp := { err := none }

/-- A failed `authenticate:oauth2` completion. -/
def oauthRespFail : OAuthResp := { err := some (JsErr.jsError ("denied")) }

/-- A successful `authenticate:oauth2:validate` completion. -/
def validateRespOk : ValidateResp :=
  { err := none,
    auth := some { xhr := some { status := 200, responseText := validateBodyOk } } }

/-! ## Helper lemmas -/

/-- The dispatcher walk invokes the completion exactly once, whatever the
handlers decide. -/
theorem runHandlers_length_one {π : Type} (hs : List (π → HandlerStep π))
    (p : π) (e : Option JsErr) : (runHandlers hs p e).length = 1 := by
  induction hs generalizing p e with
  | nil => rfl
  | cons h rest ih =>
    unfold runHandlers
    cases h p with
    | hNext e2 p2 => exact ih p2 e2
    | hDone e2 r p2 => rfl

/-- Past its two guards, `savePlugin` issues the gist write and hands the
payload to `saveCallback`. -/
theorem savePlugin_past_guards (d : SaveData) (env : SaveEnv)
    (h1 : d.isAuthenticated = true) (h2 : env.onLine = true) :
    savePlugin d env =
      { data := (saveCallback d env.resp).1, call := (saveCallback d env.resp).2,
        request := some
          { url := "https://api.github.com/gists" ++
              (if jvTruthy d.id then "/" ++ jvToString d.id else ""),
            method := if jvTruthy d.id then "PATCH" else "POST",
            body := some (saveRequestBody d.contents) } } := by
  simp [savePlugin, h1, h2]

/-- A transport error is forwarded by the save callback via the continue
operation. -/
theorem saveCallback_err (d : SaveData) (resp : AjaxResponse) (e : JsErr)
    (he : resp.err = some e) : saveCallback d resp = (d, CbCall.next (some e)) := by
  simp [saveCallback, he]

/-- A status other than 200 / 201 makes the save callback report `new
Error('Request failed')` via the continue operation. -/
theorem saveCallback_badStatus (d : SaveData) (resp : AjaxResponse) (x : Xhr)
    (he : resp.err = none) (hx : resp.xhr = some x)
    (h200 : x.status ≠ 200) (h201 : x.status ≠ 201) :
    saveCallback d resp = (d, CbCall.next (some (JsErr.jsError ("Request failed")))) := by
  have hb : (x.status != 200 && x.status != 201) = true := by
    simp [bne_iff_ne]
    exact ⟨h200, h201⟩
  simp [saveCallback, he, hx, hb]

/-- On an accepted status with an unparsable body the save callback forwards
the caught `SyntaxError` via the continue operation. -/
theorem saveCallback_parseFail (d : SaveData) (resp : AjaxResponse) (x : Xhr)
    (he : resp.err = none) (hx : resp.xhr = some x)
    (hst : x.status = 200 ∨ x.status = 201)
    (hp : Json.parse x.responseText = none) :
    saveCallback d resp = (d, CbCall.next (some JsErr.syntaxError)) := by
  have hb : (x.status != 200 && x.status != 201) = false := by
    rcases hst with h | h <;> simp [h]
  simp [saveCallback, he, hx, hb, hp]

/-- On an accepted status with a parseable non-null body the save callback
updates the payload id and owner from the response and invokes the continue
operation with no error. -/
theorem saveCallback_success (d : SaveData) (resp : AjaxResponse) (x : Xhr)
    (c : Json) (he : resp.err = none) (hx : resp.xhr = some x)
    (hst : x.status = 200 ∨ x.status = 201)
    (hp : Json.parse x.responseText = some c) (hc : c ≠ Json.null) :
    saveCallback d resp =
      ({ d with
          id := jsGet c ("id"),
          ownerId := if jvTruthy (jsGet c ("user")) then jvGet (jsGet c ("user")) ("id")
            else jsGet c ("user") },
       CbCall.next none) := by
  have hb : (x.status != 200 && x.status != 201) = false := by
    rcases hst with h | h <;> simp [h]
  cases c with
  | null => exact absurd rfl hc
  | bool b => simp [saveCallback, he, hx, hb, hp]
  | num n => simp [saveCallback, he, hx, hb, hp]
  | str s => simp [saveCallback, he, hx, hb, hp]
  | arr xs => simp [saveCallback, he, hx, hb, hp]
  | obj fs => simp [saveCallback, he, hx, hb, hp]

/-- On an accepted status with a body parsing to `null`, `content.id` inside
the `try` raises a `TypeError` that the `catch` forwards via the continue
operation. -/
theorem saveCallback_nullBody (d : SaveData) (resp : AjaxResponse) (x : Xhr)
    (he : resp.err = none) (hx : resp.xhr = some x)
    (hst : x.status = 200 ∨ x.status = 201)
    (hp : Json.parse x.responseText = some Json.null) :
    saveCallback d resp = (d, CbCall.next (some JsErr.typeError)) := by
  have hb : (x.status != 200 && x.status != 201) = false := by
    rcases hst with h | h <;> simp [h]
  simp [saveCallback, he, hx, hb, hp]

/-- The save callback never invokes the terminate operation. -/
theorem saveCallback_not_done (d : SaveData) (resp : AjaxResponse) :
    (saveCallback d resp).2.isDone = false := by
  unfold saveCallback
  rcases resp with ⟨err, xhr⟩
  cases err with
  | some e => rfl
  | none =>
    cases xhr with
    | none => rfl
    | some x =>
      dsimp only
      split
      · rfl
      · split <;> rfl

/-- With a truthy id, `loadPlugin` issues the gist read and hands the payload
to `loadCallback`. -/
theorem loadPlugin_withId (d : LoadData) (resp : AjaxResponse)
    (h : jvTruthy d.id = true) :
    loadPlugin d resp =
      { data := (loadCallback d resp).1, call := (loadCallback d resp).2,
        request := some
          { url := "https://api.github.com/gists/" ++ jvToString d.id,
            method := "GET", body := none } } := by
  simp [loadPlugin, h]

/-- An unparsable body makes the load callback forward the caught
`SyntaxError` via the continue operation. -/
theorem loadCallback_parseFail (d : LoadData) (resp : AjaxResponse) (x : Xhr)
    (hx : resp.xhr = some x) (hp : Json.parse x.responseText = none) :
    loadCallback d resp = (d, CbCall.next (some JsErr.syntaxError)) := by
  simp [loadCallback, hx, hp]

/-- A parsed body lacking the files map or the `notebook.md` key makes the
load callback report `new Error('Unexpected JSON response')` via the continue
operation. -/
theorem loadCallback_malformed (d : LoadData) (resp : AjaxResponse) (x : Xhr)
    (c : Json) (hx : resp.xhr = some x) (hp : Json.parse x.responseText = some c)
    (hbad : c.truthy = false ∨ jvTruthy (jsGet c ("files")) = false ∨
      jvTruthy (jvGet (jsGet c ("files")) ("notebook.md")) = false) :
    loadCallback d resp =
      (d, CbCall.next (some (JsErr.jsError ("Unexpected JSON response")))) := by
  have hb : (!c.truthy || !jvTruthy (jsGet c ("files"))
      || !jvTruthy (jvGet (jsGet c ("files")) ("notebook.md"))) = true := by
    rcases hbad with h | h | h <;> simp [h]
  simp [loadCallback, hx, hp, hb]

/-- `loadCallback` with no xhr object: the dereference `xhr.responseText`
raises a `TypeError` inside the `try`, which the `catch` forwards via the
continue operation. -/
theorem loadCallback_noXhr (d : LoadData) (resp : AjaxResponse)
    (hx : resp.xhr = none) :
    loadCallback d resp = (d, CbCall.next (some JsErr.typeError)) := by
  simp [loadCallback, hx]

/-! ## The claims -/

/-- Claim C1: for every invocation of `trigger(channel, payload, completion)`
over a snapshot of handlers each of which invokes exactly one of
continue/terminate exactly once, the completion function is invoked exactly
once, regardless of how many handlers are registered and of which of the two
operations each handler calls. -/
theorem claim_C1_completion_exactly_once {π : Type}
    (hs : List (π → HandlerStep π)) (p : π) : (triggerMW hs p).length = 1 :=
  runHandlers_length_one hs p none

/-- Claim C2 counterexample: an authenticated, online save whose write
succeeds with status 200 completes via the continue operation (`next()`),
not the terminate operation the claim names — the write was issued and
`isDone` is false. -/
theorem claim_C2_counterexample :
    (savePlugin saveDataAuth saveEnvOk).call = CbCall.next none ∧
    (savePlugin saveDataAuth saveEnvOk).call.isDone = false ∧
    (savePlugin saveDataAuth saveEnvOk).request.isSome = true :=
  ⟨rfl, rfl, rfl⟩

/-- Claim C2 (amended): past its guards, the save handler never invokes the
terminate operation; it completes via the continue operation — `next(err)` on
transport error, `next(new Error('Request failed'))` on a status other than
200/201, `next(e)` on an unparsable body (the caught `SyntaxError`) or a body
parsing to `null` (the caught `TypeError` from `content.id`), and `next()`
with no error, having first updated the payload id and owner from the
response, otherwise. -/
theorem claim_C2_save_completes_via_continue (d : SaveData) (env : SaveEnv)
    (hAuth : d.isAuthenticated = true) (hOn : env.onLine = true) :
    (savePlugin d env).call.isDone = false ∧
    (∀ e, env.resp.err = some e →
      (savePlugin d env).call = CbCall.next (some e)) ∧
    (∀ x, env.resp.err = none → env.resp.xhr = some x →
      x.status ≠ 200 → x.status ≠ 201 →
      (savePlugin d env).call = CbCall.next (some (JsErr.jsError ("Request failed")))) ∧
    (∀ x, env.resp.err = none → env.resp.xhr = some x →
      (x.status = 200 ∨ x.status = 201) → Json.parse x.responseText = none →
      (savePlugin d env).call = CbCall.next (some JsErr.syntaxError)) ∧
    (∀ x, env.resp.err = none → env.resp.xhr = some x →
      (x.status = 200 ∨ x.status = 201) →
      Json.parse x.responseText = some Json.null →
      (savePlugin d env).call = CbCall.next (some JsErr.typeError)) ∧
    (∀ x c, env.resp.err = none → env.resp.xhr = some x →
      (x.status = 200 ∨ x.status = 201) → Json.parse x.responseText = some c →
      c ≠ Json.null →
      (savePlugin d env).call = CbCall.next none ∧
      (savePlugin d env).data.id = jsGet c ("id") ∧
      (savePlugin d env).data.ownerId =
        (if jvTruthy (jsGet c ("user")) then jvGet (jsGet c ("user")) ("id")
         else jsGet c ("user"))) := by
  have hpast := savePlugin_past_guards d env hAuth hOn
  refine ⟨?_, ?_, ?_, ?_, ?_, ?_⟩
  · rw [hpast]
    exact saveCallback_not_done d env.resp
  · intro e he
    rw [hpast]
    show (saveCallback d env.resp).2 = _
    rw [saveCallback_err d env.resp e he]
  · intro x he hx h200 h201
    rw [hpast]
    show (saveCallback d env.resp).2 = _
    rw [saveCallback_badStatus d env.resp x he hx h200 h201]
  · intro x he hx hst hp
    rw [hpast]
    show (saveCallback d env.resp).2 = _
    rw [saveCallback_parseFail d env.resp x he hx hst hp]
  · intro x he hx hst hp
    rw [hpast]
    show (saveCallback d env.resp).2 = _
    rw [saveCallback_nullBody d env.resp x he hx hst hp]
  · intro x c he hx hst hp hc
    have hcb := saveCallback_success d env.resp x c he hx hst hp hc
    refine ⟨?_, ?_, ?_⟩
    · rw [hpast]
      show (saveCallback d env.resp).2 = _
      rw [hcb]
    · rw [hpast]
      show (saveCallback d env.resp).1.id = _
      rw [hcb]
    · rw [hpast]
      show (saveCallback d env.resp).1.ownerId = _
      rw [hcb]

/-- Claim C2 witness: the amended theorem applied to a concrete
authenticated, online save. -/
theorem claim_C2_save_completes_via_continue_witness :
    saveDataAuth.isAuthenticated = true ∧ saveEnvOk.onLine = true ∧
    (savePlugin saveDataAuth saveEnvOk).call.isDone = false :=
  ⟨rfl, rfl, (claim_C2_save_completes_via_continue saveDataAuth saveEnvOk rfl rfl).1⟩

/-- Claim C3 counterexample: a load with an identifier whose read returns an
unparsable body invokes the continue operation with the caught error — not
the terminate operation the claim names. -/
theorem claim_C3_counterexample :
    (loadPlugin loadDataWithId respBad).call = CbCall.next (some JsErr.syntaxError) ∧
    (loadPlugin loadDataWithId respBad).call.isDone = false :=
  ⟨rfl, rfl⟩

/-- Claim C3 (amended): for every `persistence:load` trigger carrying an
identifier, if the network read completes but the response content is
malformed (unparsable body, or a parsed value failing the
files / `notebook.md` guard), the load handler reports the failure via the
continue operation with an error value — a provisional failure passing
control to any later handler — rather than terminating the trigger. -/
theorem claim_C3_load_malformed_continue (d : LoadData) (resp : AjaxResponse)
    (x : Xhr) (hid : jvTruthy d.id = true) (hx : resp.xhr = some x) :
    (Json.parse x.responseText = none →
      (loadPlugin d resp).call = CbCall.next (some JsErr.syntaxError)) ∧
    (∀ c, Json.parse x.responseText = some c →
      (c.truthy = false ∨ jvTruthy (jsGet c ("files")) = false ∨
        jvTruthy (jvGet (jsGet c ("files")) ("notebook.md")) = false) →
      (loadPlugin d resp).call =
        CbCall.next (some (JsErr.jsError ("Unexpected JSON response")))) := by
  have hpast := loadPlugin_withId d resp hid
  constructor
  · intro hp
    rw [hpast]
    show (loadCallback d resp).2 = _
    rw [loadCallback_parseFail d resp x hx hp]
  · intro c hp hbad
    rw [hpast]
    show (loadCallback d resp).2 = _
    rw [loadCallback_malformed d resp x c hx hp hbad]

/-- Claim C3 witness: the amended theorem applied to the unparsable-body
fixture. -/
theorem claim_C3_load_malformed_continue_witness :
    jvTruthy loadDataWithId.id = true ∧
    (loadPlugin loadDataWithId respBad).call = CbCall.next (some JsErr.syntaxError) :=
  ⟨rfl, (claim_C3_load_malformed_continue loadDataWithId respBad
    { status := 200, responseText := badBody } rfl rfl).1 rfl⟩

/-- Claim C4 counterexample: an authenticated save with `navigator.onLine ===
false` invokes the continue operation with `new Error('No internet
available')` — not the no-error decline the claim states. -/
theorem claim_C4_counterexample :
    (savePlugin saveDataAuth saveEnvOffline).call =
      CbCall.next (some (JsErr.jsError ("No internet available"))) ∧
    (savePlugin saveDataAuth saveEnvOffline).call ≠ CbCall.next none ∧
    (savePlugin saveDataAuth saveEnvOffline).request = none := by
  refine ⟨rfl, ?_, rfl⟩
  intro h
  have h2 : CbCall.next (some (JsErr.jsError ("No internet available"))) =
      CbCall.next none := by
    rw [← h]
    rfl
  simp at h2

/-- Claim C4 (amended): for every authenticated payload, when connectivity is
known to be unavailable the save handler invokes the continue operation with
the error `new Error('No internet available')` — a provisional failure, not a
no-error decline — without attempting a network write and leaving the payload
unmodified. -/
theorem claim_C4_offline_continue_error (d : SaveData) (env : SaveEnv)
    (h1 : d.isAuthenticated = true) (h2 : env.onLine = false) :
    savePlugin d env =
      { data := d,
        call := CbCall.next (some (JsErr.jsError ("No internet available"))),
        request := none } := by
  simp [savePlugin, h1, h2]

/-- Claim C4 witness: the amended theorem applied to the offline fixture. -/
theorem claim_C4_offline_continue_error_witness :
    saveDataAuth.isAuthenticated = true ∧ saveEnvOffline.onLine = false ∧
    savePlugin saveDataAuth saveEnvOffline =
      { data := saveDataAuth,
        call := CbCall.next (some (JsErr.jsError ("No internet available"))),
        request := none } :=
  ⟨rfl, rfl, claim_C4_offline_continue_error saveDataAuth saveEnvOffline rfl rfl⟩

/-- Claim C5: for every payload whose `isAuthenticated()` returns false, the
save handler calls the continue operation with no arguments, performs no
network access, and leaves the payload unmodified. -/
theorem claim_C5_unauthenticated_decline (d : SaveData) (env : SaveEnv)
    (h : d.isAuthenticated = false) :
    savePlugin d env = { data := d, call := CbCall.next none, request := none } := by
  simp [savePlugin, h]

/-- Claim C5 witness: the theorem applied to an unauthenticated payload. -/
theorem claim_C5_unauthenticated_decline_witness :
    saveDataUnauth.isAuthenticated = false ∧
    savePlugin saveDataUnauth saveEnvOk =
      { data := saveDataUnauth, call := CbCall.next none, request := none } :=
  ⟨rfl, claim_C5_unauthenticated_decline saveDataUnauth saveEnvOk rfl⟩

/-- Claim C6: triggered with an identifier-carrying payload and the body
`{"id":"g1","user":{"id":7},"files":{"notebook.md":{"content":"hi"}}}`, the
load handler sets `payload.id` to `"g1"`, `payload.ownerId` to `7`,
`payload.contents` to `"hi"`, and terminates the trigger with success. -/
theorem claim_C6_load_success_scenario :
    (loadPlugin loadDataWithId respOk).data.id = some (Json.str ("g1")) ∧
    (loadPlugin loadDataWithId respOk).data.ownerId = some (Json.num 7) ∧
    (loadPlugin loadDataWithId respOk).data.contents = some (Json.str ("hi")) ∧
    (loadPlugin loadDataWithId respOk).call = CbCall.done none none :=
  ⟨rfl, rfl, rfl, rfl⟩

/-- Claim C7: every save reaching the network write uses `PATCH` with the id
appended to the URL when the payload has an id and `POST` otherwise, sends the
JSON serialization of `{files: {'notebook.md': {content: <contents>}}}`, and
accepts exactly the statuses 200 and 201 — every other status is reported as
the `Request failed` failure, and an accepted status never is. -/
theorem claim_C7_save_request_shape (d : SaveData) (env : SaveEnv)
    (hAuth : d.isAuthenticated = true) (hOn : env.onLine = true) :
    (savePlugin d env).request =
      some { url := "https://api.github.com/gists" ++
              (if jvTruthy d.id then "/" ++ jvToString d.id else ""),
             method := if jvTruthy d.id then "PATCH" else "POST",
             body := some (Json.stringify (Json.obj [("files", Json.obj [("notebook.md",
               Json.obj (match d.contents with
                 | none => []
                 | some c => [("content", c)]))])])) } ∧
    (∀ x, env.resp.err = none → env.resp.xhr = some x →
      x.status ≠ 200 → x.status ≠ 201 →
      (savePlugin d env).call = CbCall.next (some (JsErr.jsError ("Request failed")))) ∧
    (∀ x, env.resp.err = none → env.resp.xhr = some x →
      (x.status = 200 ∨ x.status = 201) →
      (savePlugin d env).call ≠ CbCall.next (some (JsErr.jsError ("Request failed")))) := by
  have hpast := savePlugin_past_guards d env hAuth hOn
  refine ⟨?_, ?_, ?_⟩
  · rw [hpast]
    rfl
  · intro x he hx h200 h201
    rw [hpast]
    show (saveCallback d env.resp).2 = _
    rw [saveCallback_badStatus d env.resp x he hx h200 h201]
  · intro x he hx hst
    rw [hpast]
    show (saveCallback d env.resp).2 ≠ _
    cases hp : Json.parse x.responseText with
    | none =>
      rw [saveCallback_parseFail d env.resp x he hx hst hp]
      simp
    | some c =>
      cases c with
      | null =>
        have hb : (x.status != 200 && x.status != 201) = false := by
          rcases hst with h | h <;> simp [h]
        simp [saveCallback, he, hx, hb, hp]
      | bool b =>
        rw [saveCallback_success d env.resp x (Json.bool b) he hx hst hp (by simp)]
        simp
      | num n =>
        rw [saveCallback_success d env.resp x (Json.num n) he hx hst hp (by simp)]
        simp
      | str s =>
        rw [saveCallback_success d env.resp x (Json.str s) he hx hst hp (by simp)]
        simp
      | arr xs =>
        rw [saveCallback_success d env.resp x (Json.arr xs) he hx hst hp (by simp)]
        simp
      | obj fs =>
        rw [saveCallback_success d env.resp x (Json.obj fs) he hx hst hp (by simp)]
        simp

/-- Claim C7 witness: the theorem applied to a concrete save of a payload
with id `"g1"` whose write returns status 404. -/
theorem claim_C7_save_request_shape_witness :
    saveDataWithId.isAuthenticated = true ∧ saveEnvFail.onLine = true ∧
    (savePlugin saveDataWithId saveEnvFail).request =
      some { url := "https://api.github.com/gists/g1", method := "PATCH",
             body := some ("\x7b\"files\":\x7b\"notebook.md\":\x7b\"content\":\"hello\"\x7d\x7d\x7d") } ∧
    (savePlugin saveDataWithId saveEnvFail).call =
      CbCall.next (some (JsErr.jsError ("Request failed"))) := by
  have h := claim_C7_save_request_shape saveDataWithId saveEnvFail rfl rfl
  refine ⟨rfl, rfl, ?_, ?_⟩
  · rw [h.1]
    rfl
  · exact h.2.1 { status := 404, responseText := "" } rfl rfl (by decide) (by decide)

/-- Claim C8: for every payload with no (truthy) identifier, the load handler
declines immediately — it calls the continue operation with no error value,
performs no network access, and leaves the payload unmodified. -/
theorem claim_C8_load_no_id_decline (d : LoadData) (resp : AjaxResponse)
    (h : jvTruthy d.id = false) :
    loadPlugin d resp = { data := d, call := CbCall.next none, request := none } := by
  simp [loadPlugin, h]

/-- Claim C8 witness: the theorem applied to an id-less payload. -/
theorem claim_C8_load_no_id_decline_witness :
    jvTruthy loadDataNoId.id = false ∧
    loadPlugin loadDataNoId respOk =
      { data := loadDataNoId, call := CbCall.next none, request := none } :=
  ⟨rfl, claim_C8_load_no_id_decline loadDataNoId respOk rfl⟩

/-- Claim C9: every `persistence:authenticate` trigger issues the
`authenticate:oauth2` trigger with the gist scope and the endpoint constants;
a failed oauth completion is forwarded via the continue operation and the
validate channel is not triggered; a successful one triggers
`authenticate:oauth2:validate`, and when validation succeeds with a parseable
non-null body the handler terminates with the identity `{userId: content.id,
userTitle: content.login + ' @ Github'}` derived from the validation
response. -/
theorem claim_C9_authenticate_flow (oauth : OAuthResp) (validate : ValidateResp) :
    ((authenticatePlugin oauth validate).oauthScopes = ["gist"] ∧
     (authenticatePlugin oauth validate).oauthValidateUrl = VALID_URL ∧
     (authenticatePlugin oauth validate).oauthAccessTokenUrl = TOKEN_URL ∧
     (authenticatePlugin oauth validate).oauthAuthorizationUrl = AUTH_URL) ∧
    (∀ e, oauth.err = some e →
      (authenticatePlugin oauth validate).call = AuthCall.next (some e) ∧
      (authenticatePlugin oauth validate).validateTriggered = false) ∧
    (oauth.err = none →
      (authenticatePlugin oauth validate).validateTriggered = true) ∧
    (∀ a x c, oauth.err = none → validate.err = none → validate.auth = some a →
      a.xhr = some x → Json.parse x.responseText = some c → c ≠ Json.null →
      (authenticatePlugin oauth validate).call =
        AuthCall.done none (some
          { userId := jsGet c ("id"),
            userTitle := jvToString (jsGet c ("login")) ++ " @ Github" })) := by
  refine ⟨?_, ?_, ?_, ?_⟩
  · cases h : oauth.err <;> simp [authenticatePlugin, h]
  · intro e he
    simp [authenticatePlugin, he]
  · intro he
    simp [authenticatePlugin, he]
  · intro a x c h0 h1 h2 h3 h4 hc
    have hcall : (authenticatePlugin oauth validate).call = authenticatedUserId validate := by
      simp [authenticatePlugin, h0]
    rw [hcall]
    cases c with
    | null => exact absurd rfl hc
    | bool b => simp [authenticatedUserId, h1, h2, h3, h4]
    | num n => simp [authenticatedUserId, h1, h2, h3, h4]
    | str s => simp [authenticatedUserId, h1, h2, h3, h4]
    | arr xs => simp [authenticatedUserId, h1, h2, h3, h4]
    | obj fs => simp [authenticatedUserId, h1, h2, h3, h4]

/-- Claim C9 witness: the theorem applied to a successful oauth completion and
a successful validation returning `{"id":7,"login":"octo"}`. -/
theorem claim_C9_authenticate_flow_witness :
    (authenticatePlugin oauthRespOk validateRespOk).call =
      AuthCall.done none (some
        { userId := some (Json.num 7),
          userTitle := "octo @ Github" }) ∧
    (authenticatePlugin oauthRespOk validateRespOk).validateTriggered = true := by
  have h := claim_C9_authenticate_flow oauthRespOk validateRespOk
  constructor
  · have h4 := h.2.2.2 { xhr := some { status := 200, responseText := validateBodyOk } }
      { status := 200, responseText := validateBodyOk } validateContentOk
      rfl rfl rfl rfl rfl (by simp [validateContentOk])
    rw [h4]
    rfl
  · exact h.2.2.1 rfl

/-- Claim C10 counterexample: an ajax completion that supplies an error and no
xhr object does not leave the handler with an uncaught dereference — the
caught `TypeError` is forwarded via the continue operation. -/
theorem claim_C10_counterexample :
    (loadPlugin loadDataWithId respErrOnly).call = CbCall.next (some JsErr.typeError) ∧
    (loadPlugin loadDataWithId respErrOnly).call.isNext = true :=
  ⟨rfl, rfl⟩

/-- Claim C10 (amended): the error argument of the nested `ajax` completion is
ignored — the load handler's outcome is a function of the xhr component alone,
so an ajax-level failure is never forwarded as itself — and when the
completion supplies an error with no xhr object, the dereference of the
missing xhr raises a `TypeError` inside the `try` that the handler forwards
via the continue operation. -/
theorem claim_C10_ajax_error_ignored :
    (∀ (d : LoadData) (e1 e2 : Option JsErr) (x : Option Xhr),
      loadPlugin d { err := e1, xhr := x } = loadPlugin d { err := e2, xhr := x }) ∧
    (∀ (d : LoadData) (e : JsErr), jvTruthy d.id = true →
      (loadPlugin d { err := some e, xhr := none }).call =
        CbCall.next (some JsErr.typeError)) := by
  constructor
  · intro d e1 e2 x
    rfl
  · intro d e hid
    rw [loadPlugin_withId d { err := some e, xhr := none } hid]
    show (loadCallback d { err := some e, xhr := none }).2 = _
    rw [loadCallback_noXhr d { err := some e, xhr := none } rfl]

/-- Claim C10 witness: the amended theorem applied to a concrete completion
carrying an error and no xhr. -/
theorem claim_C10_ajax_error_ignored_witness :
    jvTruthy loadDataWithId.id = true ∧
    (loadPlugin loadDataWithId
      { err := some (JsErr.jsError ("connection refused")), xhr := none }).call =
      CbCall.next (some JsErr.typeError) :=
  ⟨rfl, claim_C10_ajax_error_ignored.2 loadDataWithId
    (JsErr.jsError ("connection refused")) rfl⟩
